import Mathlib

/-
  Verification development for the bullock-cart race backend.

  Shallow embedding of the race hierarchy (Race → RaceDay → RaceResult),
  the admin result-mutation endpoints (src/app/api/v1/races.py), the public
  per-bull statistics queries (src/app/api/v1/public.py) and the monthly
  leaderboard service (src/app/services/leaderboard.py).

  Conventions of the embedding:
  - UUID primary keys are represented by `Nat`; fresh ids are drawn from a
    `nextId` counter carried in the database state (uuid4 generation).
  - SQL `Date` columns are triples (year, month, day) ordered
    lexicographically.
  - A handler that raises `HTTPException` before any session mutation is a
    function returning `Except ApiError …`; the pre-state is unchanged on
    error because FastAPI discards the session without committing.
  - Database CHECK constraints declared on the SQLAlchemy models are
    enforced at commit time: a commit that would violate them raises, so
    the embedded operation returns `constraintViolation` and leaves the
    state unchanged.
-/

set_option maxRecDepth 4000

namespace RaceBackend

/-- Calendar date (column type `Date`), compared lexicographically. -/
structure Date where
  year : Nat
  month : Nat
  day : Nat
deriving DecidableEq, Repr

/-- `a ≤ b` on dates, lexicographic on (year, month, day). -/
def dateLe (a b : Date) : Bool :=
  a.year < b.year ||
    (a.year == b.year &&
      (a.month < b.month || (a.month == b.month && a.day ≤ b.day)))

/-- `a < b` on dates, lexicographic on (year, month, day). -/
def dateLt (a b : Date) : Bool :=
  a.year < b.year ||
    (a.year == b.year &&
      (a.month < b.month || (a.month == b.month && a.day < b.day)))

/-- Failure kinds surfaced by the handlers (HTTP 404 / 400 / IntegrityError). -/
inductive ApiError where
  | notFound
  | duplicatePosition
  | invalidRange
  | duplicateDayNumber
  | constraintViolation
deriving DecidableEq, Repr

/-- One row of the `races` table (src/app/models/race.py, class Race). -/
structure RaceRow where
  id : Nat
  name : String
  start_date : Date
  end_date : Date
  address : String
  gps_location : Option String
  management_contact : Option String
  track_length : Nat
  track_length_unit : String
  description : Option String
  status : String
  created_by : Option String
deriving DecidableEq, Repr

/-- One row of the `race_days` table (src/app/models/race.py, class RaceDay). -/
structure RaceDayRow where
  id : Nat
  race_id : Nat
  day_number : Nat
  race_date : Date
  day_subtitle : Option String
  status : String
  total_participants : Nat
deriving DecidableEq, Repr

/-- One row of the `race_results` table (src/app/models/race.py, class RaceResult). -/
structure RaceResultRow where
  id : Nat
  race_day_id : Nat
  bull1_id : Option Nat
  bull2_id : Option Nat
  owner1_id : Option Nat
  owner2_id : Option Nat
  position : Nat
  time_milliseconds : Nat
  is_disqualified : Bool
  disqualification_reason : Option String
  notes : Option String
deriving DecidableEq, Repr

/-- Database state for the race hierarchy tables. -/
structure DB where
  races : List RaceRow
  race_days : List RaceDayRow
  race_results : List RaceResultRow
  nextId : Nat
deriving DecidableEq, Repr

/-- Payload `RaceCreate` (src/app/schemas/race.py): all base fields plus a
status that pydantic constrains to the four-value enum (default
`scheduled`). -/
structure RaceCreate where
  name : String
  start_date : Date
  end_date : Date
  address : String
  gps_location : Option String
  management_contact : Option String
  track_length : Nat
  track_length_unit : String
  description : Option String
  status : String
deriving DecidableEq, Repr

/-- Payload `RaceUpdate` (src/app/schemas/race.py): every field optional;
`none` means the field was not supplied (`model_dump(exclude_unset=True)`
skips it). For nullable columns an explicitly supplied null is
`some none`. -/
structure RaceUpdate where
  name : Option String
  start_date : Option Date
  end_date : Option Date
  address : Option String
  gps_location : Option (Option String)
  management_contact : Option (Option String)
  track_length : Option Nat
  track_length_unit : Option String
  description : Option (Option String)
  status : Option String
deriving DecidableEq, Repr

/-- Payload `RaceResultCreate` (src/app/schemas/race.py): note that it
carries its own `race_day_id` field. -/
structure RaceResultCreate where
  race_day_id : Nat
  bull1_id : Option Nat
  bull2_id : Option Nat
  owner1_id : Option Nat
  owner2_id : Option Nat
  position : Nat
  time_milliseconds : Nat
  is_disqualified : Bool
  disqualification_reason : Option String
  notes : Option String
deriving DecidableEq, Repr

/-- CHECK constraints of the `races` table (src/app/models/race.py lines
40-55): status enum, `end_date >= start_date` (constraint
`check_race_dates`), and the track-length-unit enum. The database raises
on commit when a written row violates one of them. -/
def raceRowConstraintsOk (r : RaceRow) : Bool :=
  ["scheduled", "in_progress", "completed", "cancelled"].contains r.status &&
    dateLe r.start_date r.end_date &&
    ["meters", "feet"].contains r.track_length_unit

/-- The Race row built from a `RaceCreate` payload plus `created_by`
(`Race(**race.model_dump(), created_by=current_user.username)`,
src/app/api/v1/races.py lines 35-38). -/
def raceRowOfCreate (id : Nat) (race : RaceCreate) (current_user : String) :
    RaceRow :=
  { id := id
    name := race.name
    start_date := race.start_date
    end_date := race.end_date
    address := race.address
    gps_location := race.gps_location
    management_contact := race.management_contact
    track_length := race.track_length
    track_length_unit := race.track_length_unit
    description := race.description
    status := race.status
    created_by := some current_user }

/-- `create_race` (src/app/api/v1/races.py lines 28-42): builds a Race row
from the payload plus `created_by`, adds it and commits; the commit
enforces the table constraints. -/
def create_race (db : DB) (race : RaceCreate) (current_user : String) :
    Except ApiError DB :=
  if raceRowConstraintsOk (raceRowOfCreate db.nextId race current_user) then
    .ok { db with
            races := db.races ++ [raceRowOfCreate db.nextId race current_user]
            nextId := db.nextId + 1 }
  else
    .error .constraintViolation

/-- Applies `model_dump(exclude_unset=True)` of a `RaceUpdate` to a row via
`setattr` (src/app/api/v1/races.py lines 127-129). -/
def applyRaceUpdate (u : RaceUpdate) (r : RaceRow) : RaceRow :=
  { r with
    name := u.name.getD r.name
    start_date := u.start_date.getD r.start_date
    end_date := u.end_date.getD r.end_date
    address := u.address.getD r.address
    gps_location := u.gps_location.getD r.gps_location
    management_contact := u.management_contact.getD r.management_contact
    track_length := u.track_length.getD r.track_length
    track_length_unit := u.track_length_unit.getD r.track_length_unit
    description := u.description.getD r.description
    status := u.status.getD r.status }

/-- `update_race` (src/app/api/v1/races.py lines 111-133): 404 when the
race is missing, otherwise applies the supplied fields and commits; the
commit enforces the table constraints on the updated row. -/
def update_race (db : DB) (race_id : Nat) (race_update : RaceUpdate) :
    Except ApiError DB :=
  match db.races.find? (fun r => r.id == race_id) with
  | none => .error .notFound
  | some race =>
    if raceRowConstraintsOk (applyRaceUpdate race_update race) then
      .ok { db with
              races := db.races.map (fun r =>
                if r.id == race_id then applyRaceUpdate race_update r else r) }
    else
      .error .constraintViolation

/-- `delete_race` (src/app/api/v1/races.py lines 136-152): despite the
DELETE route, the handler (docstring "Cancel a race") only sets
`race.status = "cancelled"` and commits; no row is removed. -/
def delete_race (db : DB) (race_id : Nat) : Except ApiError DB :=
  match db.races.find? (fun r => r.id == race_id) with
  | none => .error .notFound
  | some _ =>
    .ok { db with
            races := db.races.map (fun r =>
              if r.id == race_id then { r with status := "cancelled" } else r) }

/-- A new `race_results` row built from a `RaceResultCreate` payload
(`RaceResult(**result.model_dump())`, src/app/api/v1/races.py line 357):
every column, `race_day_id` included, comes from the payload; only the id
is generated. -/
def mkResultRow (id : Nat) (rc : RaceResultCreate) : RaceResultRow :=
  { id := id
    race_day_id := rc.race_day_id
    bull1_id := rc.bull1_id
    bull2_id := rc.bull2_id
    owner1_id := rc.owner1_id
    owner2_id := rc.owner2_id
    position := rc.position
    time_milliseconds := rc.time_milliseconds
    is_disqualified := rc.is_disqualified
    disqualification_reason := rc.disqualification_reason
    notes := rc.notes }

/-- The payload content of a stored result row (inverse of `mkResultRow`,
forgetting the generated id). -/
def payloadOf (r : RaceResultRow) : RaceResultCreate :=
  { race_day_id := r.race_day_id
    bull1_id := r.bull1_id
    bull2_id := r.bull2_id
    owner1_id := r.owner1_id
    owner2_id := r.owner2_id
    position := r.position
    time_milliseconds := r.time_milliseconds
    is_disqualified := r.is_disqualified
    disqualification_reason := r.disqualification_reason
    notes := r.notes }

/-- The `RaceResult` rows currently attached to a race day
(`db.query(RaceResult).filter(RaceResult.race_day_id == race_day_id)`). -/
def resultsForDay (db : DB) (race_day_id : Nat) : List RaceResultRow :=
  db.race_results.filter (fun r => r.race_day_id == race_day_id)

/-- The inserted rows of a bulk submission: one `mkResultRow` per payload
item, ids drawn consecutively (the loop at src/app/api/v1/races.py lines
355-359). -/
def mkRows (n : Nat) : List RaceResultCreate → List RaceResultRow
  | [] => []
  | rc :: rest => mkResultRow n rc :: mkRows (n + 1) rest

/-- The committed state of a successful bulk replace
(src/app/api/v1/races.py lines 351-366): existing rows whose
`race_day_id` equals the path parameter are deleted, the new rows are
inserted, and the path day gets `total_participants = len(results)` with
a `scheduled` status advanced to `completed`. -/
def bulkReplaceState (db : DB) (race_day_id : Nat)
    (results : List RaceResultCreate) : DB :=
  { db with
    race_results :=
      db.race_results.filter (fun r => !(r.race_day_id == race_day_id)) ++
        mkRows db.nextId results
    race_days :=
      db.race_days.map (fun d =>
        if d.id == race_day_id then
          { d with
            total_participants := results.length
            status := if d.status == "scheduled" then "completed" else d.status }
        else d)
    nextId := db.nextId + results.length }

/-- `add_race_results` (src/app/api/v1/races.py lines 319-372), the bulk
replace-results endpoint:
1. 404 when `race_day_id` does not resolve;
2. 400 `Duplicate positions in results` when
   `len(positions) != len(set(positions))`;
3. otherwise commits `bulkReplaceState` — note that each inserted row
   takes `race_day_id` from the payload item itself
   (`RaceResult(**result.model_dump())`), while the path parameter decides
   which rows are deleted and which day's counter and status are set —
   and returns the inserted rows. -/
def add_race_results (db : DB) (race_day_id : Nat)
    (results : List RaceResultCreate) :
    Except ApiError (DB × List RaceResultRow) :=
  match db.race_days.find? (fun d => d.id == race_day_id) with
  | none => .error .notFound
  | some _ =>
    let positions := results.map (fun r => r.position)
    if positions.length ≠ positions.eraseDups.length then
      .error .duplicatePosition
    else
      .ok (bulkReplaceState db race_day_id results, mkRows db.nextId results)

/-- `update_race_result` (src/app/api/v1/races.py lines 479-501): 404 when
the result is missing, otherwise overwrites every payload field
(`race_day_id` included) via `setattr` and commits. The race day's
`total_participants` is not touched. -/
def update_race_result (db : DB) (result_id : Nat)
    (result_data : RaceResultCreate) : Except ApiError DB :=
  match db.race_results.find? (fun r => r.id == result_id) with
  | none => .error .notFound
  | some _ =>
    .ok { db with
            race_results := db.race_results.map (fun r =>
              if r.id == result_id then mkResultRow r.id result_data else r) }

/-- `delete_race_result` (src/app/api/v1/races.py lines 503-519): 404 when
the result is missing, otherwise deletes the row and commits. The race
day's `total_participants` is not touched. -/
def delete_race_result (db : DB) (result_id : Nat) : Except ApiError DB :=
  match db.race_results.find? (fun r => r.id == result_id) with
  | none => .error .notFound
  | some _ =>
    .ok { db with
            race_results := db.race_results.filter (fun r => !(r.id == result_id)) }

/-- The state after `add_race_results`, the pre-state when the handler
raised (the session is discarded without commit). -/
def addResultsPost (db : DB) (race_day_id : Nat)
    (results : List RaceResultCreate) : DB :=
  match add_race_results db race_day_id results with
  | .ok (db2, _) => db2
  | .error _ => db

/-- The state after `delete_race_result`, the pre-state on error. -/
def deleteResultPost (db : DB) (result_id : Nat) : DB :=
  match delete_race_result db result_id with
  | .ok db2 => db2
  | .error _ => db

/-- The state after `delete_race`, the pre-state on error. -/
def deleteRacePost (db : DB) (race_id : Nat) : DB :=
  match delete_race db race_id with
  | .ok db2 => db2
  | .error _ => db

/-- The state after `update_race_result`, the pre-state on error. -/
def updateResultPost (db : DB) (result_id : Nat) (data : RaceResultCreate) : DB :=
  match update_race_result db result_id data with
  | .ok db2 => db2
  | .error _ => db

/-- The state after `create_race`, the pre-state on error. -/
def createRacePost (db : DB) (race : RaceCreate) (current_user : String) : DB :=
  match create_race db race current_user with
  | .ok db2 => db2
  | .error _ => db

/-- The state after `update_race`, the pre-state on error. -/
def updateRacePost (db : DB) (race_id : Nat) (race_update : RaceUpdate) : DB :=
  match update_race db race_id race_update with
  | .ok db2 => db2
  | .error _ => db

/- ===================================================================
   Per-bull statistics (src/app/api/v1/public.py)
   =================================================================== -/

/-- Membership of bull `b` in a result's team: `bull1_id = b OR
bull2_id = b` (src/app/api/v1/public.py lines 207-220). -/
def bullMatches (r : RaceResultRow) (b : Nat) : Bool :=
  r.bull1_id == some b || r.bull2_id == some b

/-- `total_races` of the single-bull detail path `get_bull_detail_public`
(src/app/api/v1/public.py lines 207-212): count of results where the bull
occupies either slot and `is_disqualified = false`. -/
def detailTotalRaces (db : DB) (b : Nat) : Nat :=
  (db.race_results.filter (fun r =>
    bullMatches r b && !r.is_disqualified)).length

/-- `first_place_wins` of the single-bull detail path
(src/app/api/v1/public.py lines 214-220): additionally `position = 1`. -/
def detailFirstPlaceWins (db : DB) (b : Nat) : Nat :=
  (db.race_results.filter (fun r =>
    bullMatches r b && r.position == 1 && !r.is_disqualified)).length

/-- SQL `col IN (ids)` on a nullable column: false on NULL. -/
def slotIn (o : Option Nat) (ids : List Nat) : Bool :=
  match o with
  | some x => ids.contains x
  | none => false

/-- `func.coalesce(RaceResult.bull1_id, RaceResult.bull2_id)`
(src/app/api/v1/public.py line 131): the grouping key of the batch
statistics queries. -/
def coalesceKey (r : RaceResultRow) : Option Nat :=
  match r.bull1_id with
  | some x => some x
  | none => r.bull2_id

/-- `first_place_wins` that the batch listing path `list_bulls_public`
reports for bull `b` (src/app/api/v1/public.py lines 129-141, 181): rows
are filtered by `bull1_id IN ids OR bull2_id IN ids`, `position = 1`,
`is_disqualified = false`, then grouped by
`coalesce(bull1_id, bull2_id)`; `wins_map.get(b, 0)` is the size of the
group keyed by `b`. -/
def batchFirstPlaceWins (db : DB) (bull_ids : List Nat) (b : Nat) : Nat :=
  (db.race_results.filter (fun r =>
    (slotIn r.bull1_id bull_ids || slotIn r.bull2_id bull_ids) &&
      r.position == 1 && !r.is_disqualified &&
      coalesceKey r == some b)).length

/-- `total_races` of the batch listing path (src/app/api/v1/public.py
lines 116-127, 180), same coalesce grouping. -/
def batchTotalRaces (db : DB) (bull_ids : List Nat) (b : Nat) : Nat :=
  (db.race_results.filter (fun r =>
    (slotIn r.bull1_id bull_ids || slotIn r.bull2_id bull_ids) &&
      !r.is_disqualified && coalesceKey r == some b)).length

/- ===================================================================
   Monthly leaderboard service (src/app/services/leaderboard.py)

   The service queries `RaceResult.bull_id`, `RaceResult.race_id`,
   `Race.race_date`, `Race.village_id`, `Bull.village_id` and imports
   `app.models.region` (District, Taluka, Tahsil, Village) and
   `app.models.leaderboard` (Leaderboard) — columns and model modules that
   are absent from the models shipped under src. The row shapes below are
   therefore modelled from the spec (§3 Leaderboard entity, §4.3 region
   rollup) and from the service's own usage; the computation itself
   follows the service source line by line.
   =================================================================== -/

/-- Modelled from the spec: the bull row as the leaderboard service uses
it (`Bull.id`, `Bull.name`, `Bull.photo_url`, `Bull.village_id`); the Bull
model in src lacks `village_id`. -/
structure LBBull where
  id : Nat
  name : String
  photo_url : Option String
  village_id : Nat
deriving DecidableEq, Repr

/-- Modelled from the spec: the single-bull race-result row the service
queries (`RaceResult.bull_id`, `RaceResult.race_id`,
`RaceResult.position`, `RaceResult.time_milliseconds`,
`RaceResult.is_disqualified`); the RaceResult model in src has two bull
slots and `race_day_id` instead. -/
structure LBResult where
  id : Nat
  bull_id : Nat
  race_id : Nat
  position : Nat
  time_milliseconds : Nat
  is_disqualified : Bool
deriving DecidableEq, Repr

/-- Modelled from the spec: the race row the service queries
(`Race.id`, `Race.race_date`, `Race.status`, `Race.village_id`); the Race
model in src has a date range and no village. -/
structure LBRace where
  id : Nat
  race_date : Date
  status : String
  village_id : Nat
deriving DecidableEq, Repr

/-- Modelled from the spec: `app.models.region.Village` (absent from src),
a leaf of the 4-level region hierarchy with its parent tahsil. -/
structure Village where
  id : Nat
  tahsil_id : Nat
deriving DecidableEq, Repr

/-- Modelled from the spec: `app.models.region.Tahsil` (absent from src). -/
structure Tahsil where
  id : Nat
  taluka_id : Nat
deriving DecidableEq, Repr

/-- Modelled from the spec: `app.models.region.Taluka` (absent from src). -/
structure Taluka where
  id : Nat
  district_id : Nat
deriving DecidableEq, Repr

/-- Modelled from the spec: `app.models.leaderboard.Leaderboard` (absent
from src), the cache row keyed by (year, month, region_type, region_id,
bull_id) with rank and aggregates, exactly the fields
`save_leaderboard_to_db` writes. -/
structure LBRow where
  year : Nat
  month : Nat
  region_type : String
  region_id : Nat
  bull_id : Nat
  rank : Nat
  first_place_wins : Nat
  total_races : Nat
  best_time_milliseconds : Nat
deriving DecidableEq, Repr

/-- Database state for the leaderboard service's data tables: bulls,
single-bull results, races and the region hierarchy (district ids appear
only as foreign keys of talukas). The `leaderboard` cache table — the only
table the service writes — is carried separately as a `List LBRow`, so
that reads of the data tables and writes of the cache cannot interfere by
construction. -/
structure LBDB where
  bulls : List LBBull
  results : List LBResult
  races : List LBRace
  villages : List Village
  tahsils : List Tahsil
  talukas : List Taluka
deriving DecidableEq, Repr

/-- `date(year, month, 1)` (src/app/services/leaderboard.py line 42). -/
def monthStart (year month : Nat) : Date := ⟨year, month, 1⟩

/-- First day of the following month (src/app/services/leaderboard.py
lines 43-46). -/
def monthEnd (year month : Nat) : Date :=
  if month == 12 then ⟨year + 1, 1, 1⟩ else ⟨year, month + 1, 1⟩

/-- Region filter of `compute_leaderboard_for_month`
(src/app/services/leaderboard.py lines 70-93): resolves the set of
village ids rolling up into the region and keeps races whose village is
in it; an unrecognised `region_type` applies no filter (none of the four
branches is taken). -/
def regionKeeps (db : LBDB) (region_type : String) (region_id : Nat)
    (race : LBRace) : Bool :=
  if region_type == "village" then
    race.village_id == region_id
  else if region_type == "tahsil" then
    let village_ids :=
      (db.villages.filter (fun v => v.tahsil_id == region_id)).map (fun v => v.id)
    village_ids.contains race.village_id
  else if region_type == "taluka" then
    let tahsil_ids :=
      (db.tahsils.filter (fun t => t.taluka_id == region_id)).map (fun t => t.id)
    let village_ids :=
      (db.villages.filter (fun v => tahsil_ids.contains v.tahsil_id)).map (fun v => v.id)
    village_ids.contains race.village_id
  else if region_type == "district" then
    let taluka_ids :=
      (db.talukas.filter (fun t => t.district_id == region_id)).map (fun t => t.id)
    let tahsil_ids :=
      (db.tahsils.filter (fun t => taluka_ids.contains t.taluka_id)).map (fun t => t.id)
    let village_ids :=
      (db.villages.filter (fun v => tahsil_ids.contains v.tahsil_id)).map (fun v => v.id)
    village_ids.contains race.village_id
  else
    true

/-- The date/status filter on the joined race
(src/app/services/leaderboard.py lines 64-66): `race_date >= start`,
`race_date < end`, `status = completed`. -/
def raceInWindow (year month : Nat) (race : LBRace) : Bool :=
  dateLe (monthStart year month) race.race_date &&
    dateLt race.race_date (monthEnd year month) &&
    race.status == "completed"

/-- The joined, filtered (result, race) rows of one bull's group in the
main leaderboard query (join on `Bull.id = RaceResult.bull_id` and
`RaceResult.race_id = Race.id`, filters of lines 63-68 plus the region
filter). -/
def bullWindowRows (db : LBDB) (year month : Nat)
    (region_type : String) (region_id : Nat) (b : LBBull) :
    List (LBResult × LBRace) :=
  (db.results.filter (fun r => r.bull_id == b.id && !r.is_disqualified)).flatMap
    (fun r =>
      (db.races.filter (fun race =>
        race.id == r.race_id && raceInWindow year month race &&
          regionKeeps db region_type region_id race)).map (fun race => (r, race)))

/-- One group of the main query: the grouped bull columns with
`count(nullif(position = 1, false))` (counts exactly the position-1 rows)
and `min(time_milliseconds)` (src/app/services/leaderboard.py lines
50-58, 96-97). -/
structure LBStat where
  bull_id : Nat
  bull_name : String
  photo_url : Option String
  village_id : Nat
  total_wins : Nat
  best_time : Nat
deriving DecidableEq, Repr

/-- Minimum `time_milliseconds` over a nonempty group (SQL `min`). -/
def bestTimeOf (rows : List (LBResult × LBRace)) : Nat :=
  match rows with
  | [] => 0
  | p :: rest =>
    rest.foldl (fun acc q => Nat.min acc q.1.time_milliseconds)
      p.1.time_milliseconds

/-- One bull's group of the main query when it has at least one joined
row (inner join — a bull with no matching result yields no group). -/
def statOfBull (db : LBDB) (year month : Nat)
    (region_type : String) (region_id : Nat) (b : LBBull) : Option LBStat :=
  if (bullWindowRows db year month region_type region_id b).isEmpty then none
  else
    some { bull_id := b.id
           bull_name := b.name
           photo_url := b.photo_url
           village_id := b.village_id
           total_wins :=
             ((bullWindowRows db year month region_type region_id b).filter
               (fun p => p.1.position == 1)).length
           best_time := bestTimeOf (bullWindowRows db year month region_type region_id b) }

/-- The grouped rows of the main query. -/
def groupedStats (db : LBDB) (year month : Nat)
    (region_type : String) (region_id : Nat) : List LBStat :=
  db.bulls.filterMap (statOfBull db year month region_type region_id)

/-- The ORDER BY key (src/app/services/leaderboard.py lines 98-101): win
count descending, then best time ascending. -/
def lbKeyLE (a b : LBStat) : Prop :=
  b.total_wins < a.total_wins ∨
    (a.total_wins = b.total_wins ∧ a.best_time ≤ b.best_time)

instance : DecidableRel lbKeyLE := fun a b => by
  unfold lbKeyLE; exact inferInstance

instance : IsTotal LBStat lbKeyLE where
  total a b := by
    unfold lbKeyLE
    rcases Nat.lt_trichotomy a.total_wins b.total_wins with h | h | h
    · exact .inr (.inl h)
    · rcases Nat.le_total a.best_time b.best_time with h2 | h2
      · exact .inl (.inr ⟨h, h2⟩)
      · exact .inr (.inr ⟨h.symm, h2⟩)
    · exact .inl (.inl h)

instance : IsTrans LBStat lbKeyLE where
  trans a b c hab hbc := by
    unfold lbKeyLE at *
    rcases hab with h1 | ⟨h1, h1t⟩
    · rcases hbc with h2 | ⟨h2, _⟩
      · exact .inl (h2.trans h1)
      · exact .inl (h2 ▸ h1)
    · rcases hbc with h2 | ⟨h2, h2t⟩
      · exact .inl (h1 ▸ h2)
      · exact .inr ⟨h1.trans h2, h1t.trans h2t⟩

/-- `total_races` recomputed per ranked bull (src/app/services/
leaderboard.py lines 107-115): non-disqualified participations of the
bull joined to completed races in the window — the query applies no
region filter. -/
def lbTotalRaces (db : LBDB) (year month : Nat) (bull_id : Nat) : Nat :=
  ((db.results.filter (fun r => r.bull_id == bull_id && !r.is_disqualified)).flatMap
    (fun r =>
      db.races.filter (fun race =>
        race.id == r.race_id && raceInWindow year month race))).length

/-- One returned leaderboard entry (the dict built at src/app/services/
leaderboard.py lines 117-126). -/
structure LBEntry where
  rank : Nat
  bull_id : Nat
  bull_name : String
  photo_url : Option String
  village_id : Nat
  total_wins : Nat
  total_races : Nat
  best_time_milliseconds : Nat
deriving DecidableEq, Repr

/-- The entry dict built for one ranked group (src/app/services/
leaderboard.py lines 117-126). -/
def mkEntryOf (db : LBDB) (year month rank : Nat) (s : LBStat) : LBEntry :=
  { rank := rank
    bull_id := s.bull_id
    bull_name := s.bull_name
    photo_url := s.photo_url
    village_id := s.village_id
    total_wins := s.total_wins
    total_races := lbTotalRaces db year month s.bull_id
    best_time_milliseconds := s.best_time }

/-- `enumerate(results, start=1)` over the top-10 groups, attaching the
rank and the separately computed `total_races`. -/
def assignRanks (db : LBDB) (year month : Nat) :
    Nat → List LBStat → List LBEntry
  | _, [] => []
  | n, s :: rest => mkEntryOf db year month n s :: assignRanks db year month (n + 1) rest

/-- `compute_leaderboard_for_month` (src/app/services/leaderboard.py lines
21-128): group, order by wins descending / best time ascending, take 10,
enumerate ranks from 1 and attach `total_races`. -/
def compute_leaderboard_for_month (db : LBDB) (year month : Nat)
    (region_type : String) (region_id : Nat) : List LBEntry :=
  assignRanks db year month 1
    (((groupedStats db year month region_type region_id).insertionSort lbKeyLE).take 10)

/-- The cache row written for one entry (src/app/services/leaderboard.py
lines 153-165). -/
def rowOfEntry (year month : Nat) (region_type : String) (region_id : Nat)
    (e : LBEntry) : LBRow :=
  { year := year
    month := month
    region_type := region_type
    region_id := region_id
    bull_id := e.bull_id
    rank := e.rank
    first_place_wins := e.total_wins
    total_races := e.total_races
    best_time_milliseconds := e.best_time_milliseconds }

/-- Whether a cache row carries the lookup key. -/
def keyMatches (year month : Nat) (region_type : String) (region_id : Nat)
    (row : LBRow) : Bool :=
  row.year == year && row.month == month &&
    row.region_type == region_type && row.region_id == region_id

/-- `save_leaderboard_to_db` (src/app/services/leaderboard.py lines
131-167): delete every cached row for the key, then insert one row per
entry. -/
def save_leaderboard_to_db (cache : List LBRow) (year month : Nat)
    (region_type : String) (region_id : Nat) (top_bulls : List LBEntry) :
    List LBRow :=
  cache.filter (fun row =>
    !(keyMatches year month region_type region_id row)) ++
    top_bulls.map (rowOfEntry year month region_type region_id)

/-- `compute_and_save_leaderboard` (src/app/services/leaderboard.py lines
170-185): compute, save only when the result is nonempty
(`if top_bulls:`), return the computed list. -/
def compute_and_save_leaderboard (db : LBDB) (cache : List LBRow)
    (year month : Nat) (region_type : String) (region_id : Nat) :
    List LBRow × List LBEntry :=
  (if (compute_leaderboard_for_month db year month region_type region_id).isEmpty
   then cache
   else save_leaderboard_to_db cache year month region_type region_id
     (compute_leaderboard_for_month db year month region_type region_id),
   compute_leaderboard_for_month db year month region_type region_id)

/-- The view returned by the read path (the dicts of src/app/services/
leaderboard.py lines 212-225 and 229-237); the derived
`best_time_formatted` display string (float formatting) is outside the
embedding, both paths derive it from `best_time_milliseconds` by the same
formula. -/
structure LBView where
  rank : Nat
  bull_id : Nat
  bull_name : String
  photo_url : Option String
  village_id : Nat
  total_wins : Nat
  total_races : Nat
  best_time_milliseconds : Nat
deriving DecidableEq, Repr

/-- View of a freshly computed entry (src/app/services/leaderboard.py
lines 229-237). -/
def viewOfEntry (e : LBEntry) : LBView :=
  { rank := e.rank
    bull_id := e.bull_id
    bull_name := e.bull_name
    photo_url := e.photo_url
    village_id := e.village_id
    total_wins := e.total_wins
    total_races := e.total_races
    best_time_milliseconds := e.best_time_milliseconds }

/-- View of a cached row joined with its bull (src/app/services/
leaderboard.py lines 212-225). -/
def viewOfPair (p : LBRow × LBBull) : LBView :=
  { rank := p.1.rank
    bull_id := p.2.id
    bull_name := p.2.name
    photo_url := p.2.photo_url
    village_id := p.2.village_id
    total_wins := p.1.first_place_wins
    total_races := p.1.total_races
    best_time_milliseconds := p.1.best_time_milliseconds }

/-- `rank` order used by the cached read (`order_by(Leaderboard.rank)`). -/
def rankLE (a b : LBRow) : Prop := a.rank ≤ b.rank

instance : DecidableRel rankLE := fun a b => by
  unfold rankLE; exact inferInstance

instance : IsTotal LBRow rankLE where
  total a b := Nat.le_total a.rank b.rank

instance : IsTrans LBRow rankLE where
  trans _ _ _ hab hbc := Nat.le_trans hab hbc

/-- The cache lookup of `get_leaderboard_from_db` (src/app/services/
leaderboard.py lines 201-208): rows for the key ordered by rank, inner
joined with their bulls (`join(Bull, Leaderboard.bull_id == Bull.id)`,
first bull with the id; a row whose bull is missing drops out). -/
def cachedJoined (db : LBDB) (cache : List LBRow) (year month : Nat)
    (region_type : String) (region_id : Nat) : List (LBRow × LBBull) :=
  ((cache.filter
      (keyMatches year month region_type region_id)).insertionSort rankLE).filterMap
    (fun row => (db.bulls.find? (fun b => b.id == row.bull_id)).map
      (fun b => (row, b)))

/-- `get_leaderboard_from_db` (src/app/services/leaderboard.py lines
188-237): return the cached view when the lookup is nonempty
(`if results:`), otherwise compute-and-save and return the fresh view. -/
def get_leaderboard_from_db (db : LBDB) (cache : List LBRow)
    (year month : Nat) (region_type : String) (region_id : Nat) :
    List LBRow × List LBView :=
  if (cachedJoined db cache year month region_type region_id).isEmpty then
    ((compute_and_save_leaderboard db cache year month region_type region_id).1,
     (compute_and_save_leaderboard db cache year month region_type region_id).2.map
       viewOfEntry)
  else
    (cache, (cachedJoined db cache year month region_type region_id).map viewOfPair)

/- ===================================================================
   Concrete states used by witnesses and counterexamples
   =================================================================== -/

/-- A race covering 2025-01-10 … 2025-01-12. -/
def race1 : RaceRow :=
  { id := 1
    name := "R"
    start_date := ⟨2025, 1, 10⟩
    end_date := ⟨2025, 1, 12⟩
    address := "A"
    gps_location := none
    management_contact := none
    track_length := 200
    track_length_unit := "meters"
    description := none
    status := "scheduled"
    created_by := none }

/-- Day 1 of `race1`, freshly scheduled. -/
def day1 : RaceDayRow :=
  { id := 1
    race_id := 1
    day_number := 1
    race_date := ⟨2025, 1, 11⟩
    day_subtitle := none
    status := "scheduled"
    total_participants := 0 }

/-- Day 2 of `race1`, freshly scheduled. -/
def day2 : RaceDayRow :=
  { id := 2
    race_id := 1
    day_number := 2
    race_date := ⟨2025, 1, 12⟩
    day_subtitle := none
    status := "scheduled"
    total_participants := 0 }

/-- A result payload targeting day `d` at position `pos`. -/
def itemFor (d pos : Nat) : RaceResultCreate :=
  { race_day_id := d
    bull1_id := none
    bull2_id := none
    owner1_id := none
    owner2_id := none
    position := pos
    time_milliseconds := 100
    is_disqualified := false
    disqualification_reason := none
    notes := none }

/-- One race with two empty scheduled days. -/
def exDB : DB :=
  { races := [race1]
    race_days := [day1, day2]
    race_results := [], nextId := 10 }

/-- A stored result of day 1 at position 1. -/
def res1 : RaceResultRow := mkResultRow 5 (itemFor 1 1)

/-- One race, one completed day with one result and a consistent counter. -/
def exDB2 : DB :=
  { races := [race1]
    race_days := [{ day1 with total_participants := 1, status := "completed" }]
    race_results := [res1], nextId := 10 }

/-- One race, one still-scheduled day with one result and a consistent
counter. -/
def exDB3 : DB :=
  { races := [race1]
    race_days := [{ day1 with total_participants := 1 }]
    race_results := [res1], nextId := 10 }

/-- Statistics counterexample state: result 1 has bull 2 in slot 1;
result 2 has bull 1 in slot 1 and bull 2 in slot 2; both are 1st-place
non-disqualified finishes. -/
def statsDB : DB :=
  { races := [], race_days := []
    race_results :=
      [{ id := 1, race_day_id := 1, bull1_id := some 2, bull2_id := none
         owner1_id := none, owner2_id := none, position := 1
         time_milliseconds := 100, is_disqualified := false
         disqualification_reason := none, notes := none },
       { id := 2, race_day_id := 1, bull1_id := some 1, bull2_id := some 2
         owner1_id := none, owner2_id := none, position := 1
         time_milliseconds := 110, is_disqualified := false
         disqualification_reason := none, notes := none }]
    nextId := 20 }

/-- Leaderboard example data: bulls A (3 wins, best 20000), B (3 wins,
best 19000), C (2 wins, best 15000), all racing in village 1 in May
2025; the cache starts empty. -/
def lbDB : LBDB :=
  { bulls :=
      [{ id := 1, name := "A", photo_url := none, village_id := 1 },
       { id := 2, name := "B", photo_url := none, village_id := 1 },
       { id := 3, name := "C", photo_url := none, village_id := 1 }]
    results :=
      [{ id := 1, bull_id := 1, race_id := 1, position := 1, time_milliseconds := 20000, is_disqualified := false },
       { id := 2, bull_id := 1, race_id := 1, position := 1, time_milliseconds := 21000, is_disqualified := false },
       { id := 3, bull_id := 1, race_id := 1, position := 1, time_milliseconds := 22000, is_disqualified := false },
       { id := 4, bull_id := 2, race_id := 1, position := 1, time_milliseconds := 19000, is_disqualified := false },
       { id := 5, bull_id := 2, race_id := 1, position := 1, time_milliseconds := 21000, is_disqualified := false },
       { id := 6, bull_id := 2, race_id := 1, position := 1, time_milliseconds := 23000, is_disqualified := false },
       { id := 7, bull_id := 3, race_id := 1, position := 1, time_milliseconds := 15000, is_disqualified := false },
       { id := 8, bull_id := 3, race_id := 1, position := 1, time_milliseconds := 16000, is_disqualified := false }]
    races := [{ id := 1, race_date := ⟨2025, 5, 15⟩, status := "completed", village_id := 1 }]
    villages := [{ id := 1, tahsil_id := 1 }]
    tahsils := [{ id := 1, taluka_id := 1 }]
    talukas := [{ id := 1, district_id := 1 }] }

/-- A date-valid race payload. -/
def goodRaceCreate : RaceCreate :=
  { name := "N"
    start_date := ⟨2025, 2, 1⟩
    end_date := ⟨2025, 2, 3⟩
    address := "A"
    gps_location := none
    management_contact := none
    track_length := 200
    track_length_unit := "meters"
    description := none
    status := "scheduled" }

/-- A payload whose start date exceeds its end date. -/
def badRaceCreate : RaceCreate :=
  { goodRaceCreate with start_date := ⟨2025, 2, 5⟩, end_date := ⟨2025, 2, 3⟩ }

/-- An update that keeps the dates valid. -/
def goodRaceUpdate : RaceUpdate :=
  { name := none
    start_date := some ⟨2025, 1, 9⟩
    end_date := some ⟨2025, 1, 13⟩
    address := none
    gps_location := none
    management_contact := none
    track_length := none
    track_length_unit := none
    description := none
    status := none }

/-- An update whose resulting start date exceeds the resulting end date. -/
def badRaceUpdate : RaceUpdate :=
  { goodRaceUpdate with start_date := some ⟨2025, 3, 1⟩, end_date := some ⟨2025, 2, 1⟩ }

/-- Data state in which bull 1 still exists but there are no results or
races any more. -/
def staleDB : LBDB :=
  { bulls := [{ id := 1, name := "A", photo_url := none, village_id := 1 }]
    results := [], races := [], villages := [], tahsils := [], talukas := [] }

/-- A stale cache row for (2025, 5, village 1) whose underlying data is
gone from `staleDB`. -/
def staleCache : List LBRow :=
  [{ year := 2025, month := 5, region_type := "village", region_id := 1
     bull_id := 1, rank := 1, first_place_wins := 5, total_races := 5
     best_time_milliseconds := 100 }]

/- ===================================================================
   Helper lemmas
   =================================================================== -/

theorem filter_not_filter {α : Type} (p : α → Bool) :
    ∀ l : List α, (l.filter (fun x => !(p x))).filter p = [] := by
  intro l
  induction l with
  | nil => rfl
  | cons x rest ih =>
    by_cases h : p x
    · simp [List.filter, h, ih]
    · simp [List.filter, h, ih]

theorem find?_map_update {α : Type} (key : α → Nat) (g : α → α)
    (hg : ∀ x, key (g x) = key x) (t : Nat) :
    ∀ l : List α,
      (l.map (fun x => if key x == t then g x else x)).find?
          (fun x => key x == t) =
        (l.find? (fun x => key x == t)).map g := by
  intro l
  induction l with
  | nil => rfl
  | cons x rest ih =>
    simp only [List.map_cons, List.find?_cons]
    by_cases h : key x == t
    · simp only [if_pos h, hg, h, if_true]
      rfl
    · have hf : (key x == t) = false := by simpa using h
      simp only [hf, Bool.false_eq_true, if_false]
      exact ih

theorem eq_of_key_nodup {α : Type} (key : α → Nat) :
    ∀ {l : List α}, (l.map key).Nodup →
      ∀ {x y : α}, x ∈ l → y ∈ l → key x = key y → x = y := by
  intro l
  induction l with
  | nil => intro _ x y hx; cases hx
  | cons a rest ih =>
    intro hnd x y hx hy hkey
    rw [List.map_cons, List.nodup_cons] at hnd
    rcases List.mem_cons.mp hx with rfl | hx2
    · rcases List.mem_cons.mp hy with rfl | hy2
      · rfl
      · exact absurd (hkey ▸ List.mem_map_of_mem key hy2) hnd.1
    · rcases List.mem_cons.mp hy with rfl | hy2
      · exact absurd (hkey ▸ List.mem_map_of_mem key hx2) hnd.1
      · exact ih hnd.2 hx2 hy2 hkey

theorem find?_key_of_nodup {α : Type} (key : α → Nat) :
    ∀ {l : List α}, (l.map key).Nodup →
      ∀ {x : α}, x ∈ l → l.find? (fun y => key y == key x) = some x := by
  intro l
  induction l with
  | nil => intro _ x hx; cases hx
  | cons a rest ih =>
    intro hnd x hx
    rw [List.map_cons, List.nodup_cons] at hnd
    rcases List.mem_cons.mp hx with rfl | hx2
    · simp [List.find?]
    · have hne : (key a == key x) = false := by
        apply beq_eq_false_iff_ne.mpr
        intro heq
        exact hnd.1 (heq ▸ List.mem_map_of_mem key hx2)
      rw [List.find?_cons_of_neg _ (by simp [hne]), ih hnd.2 hx2]

theorem filterMap_congr_map {α β : Type} (f : α → Option β) (g : α → β) :
    ∀ l : List α, (∀ x ∈ l, f x = some (g x)) → l.filterMap f = l.map g := by
  intro l
  induction l with
  | nil => intro _; rfl
  | cons a rest ih =>
    intro h
    rw [List.filterMap_cons, h a (List.mem_cons_self a rest),
      List.map_cons, ih (fun x hx => h x (List.mem_cons_of_mem a hx))]

/- ===================================================================
   Lemmas about the bulk replace operation
   =================================================================== -/

theorem payloadOf_mkResultRow (id : Nat) (rc : RaceResultCreate) :
    payloadOf (mkResultRow id rc) = rc := rfl

theorem mkRows_map_payload (l : List RaceResultCreate) :
    ∀ n, (mkRows n l).map payloadOf = l := by
  induction l with
  | nil => intro n; rfl
  | cons rc rest ih => intro n; simp [mkRows, payloadOf_mkResultRow, ih]

theorem mkRows_length (l : List RaceResultCreate) :
    ∀ n, (mkRows n l).length = l.length := by
  induction l with
  | nil => intro n; rfl
  | cons rc rest ih => intro n; simp [mkRows, ih]

theorem mkRows_map_day (l : List RaceResultCreate) :
    ∀ n, (mkRows n l).map (fun r => r.race_day_id) =
      l.map (fun rc => rc.race_day_id) := by
  induction l with
  | nil => intro n; rfl
  | cons rc rest ih => intro n; simp [mkRows, mkResultRow, ih]

theorem mkRows_filter_day {l : List RaceResultCreate} {d : Nat}
    (h : ∀ rc ∈ l, rc.race_day_id = d) :
    ∀ n, (mkRows n l).filter (fun r => r.race_day_id == d) = mkRows n l := by
  induction l with
  | nil => intro n; rfl
  | cons rc rest ih =>
    intro n
    have hd : rc.race_day_id = d := h rc (List.mem_cons_self rc rest)
    simp only [mkRows, List.filter_cons]
    rw [if_pos (by simp [mkResultRow, hd])]
    rw [ih (fun x hx => h x (List.mem_cons_of_mem rc hx))]

theorem add_race_results_ok {db : DB} {d : Nat} {day : RaceDayRow}
    {results : List RaceResultCreate}
    (hday : db.race_days.find? (fun x => x.id == d) = some day)
    (hpos : (results.map (fun r => r.position)).length =
      (results.map (fun r => r.position)).eraseDups.length) :
    add_race_results db d results =
      .ok (bulkReplaceState db d results, mkRows db.nextId results) := by
  unfold add_race_results
  rw [hday]
  simp [hpos]

theorem resultsForDay_bulkReplace {db : DB} {d : Nat}
    {results : List RaceResultCreate}
    (h : ∀ rc ∈ results, rc.race_day_id = d) :
    resultsForDay (bulkReplaceState db d results) d =
      mkRows db.nextId results := by
  unfold resultsForDay bulkReplaceState
  rw [List.filter_append, filter_not_filter, mkRows_filter_day h, List.nil_append]

theorem find?_day_bulkReplace {db : DB} {d : Nat} {day : RaceDayRow}
    {results : List RaceResultCreate}
    (hday : db.race_days.find? (fun x => x.id == d) = some day) :
    (bulkReplaceState db d results).race_days.find? (fun x => x.id == d) =
      some { day with
             total_participants := results.length
             status := if day.status == "scheduled" then "completed"
               else day.status } := by
  show (db.race_days.map (fun x =>
      if x.id == d then
        { x with
          total_participants := results.length
          status := if x.status == "scheduled" then "completed" else x.status }
      else x)).find? (fun x => x.id == d) = _
  rw [find?_map_update (fun x : RaceDayRow => x.id)
    (fun x => { x with
      total_participants := results.length
      status := if x.status == "scheduled" then "completed" else x.status })
    (fun _ => rfl) d db.race_days, hday]
  rfl

/- ===================================================================
   Inversion lemmas for successful handlers
   =================================================================== -/

theorem add_race_results_ok_inv {db : DB} {d : Nat}
    {results : List RaceResultCreate} {db2 : DB} {rows : List RaceResultRow}
    (h : add_race_results db d results = .ok (db2, rows)) :
    db2 = bulkReplaceState db d results ∧ rows = mkRows db.nextId results := by
  unfold add_race_results at h
  cases hfind : db.race_days.find? (fun x => x.id == d) with
  | none => rw [hfind] at h; cases h
  | some day =>
    rw [hfind] at h
    by_cases hpos : (results.map (fun r => r.position)).length ≠
        (results.map (fun r => r.position)).eraseDups.length
    · simp only [if_pos hpos] at h
      exact Except.noConfusion h
    · simp only [if_neg hpos, Except.ok.injEq, Prod.mk.injEq] at h
      exact ⟨h.1.symm, h.2.symm⟩

theorem delete_race_ok_inv {db : DB} {rid : Nat} {db2 : DB}
    (h : delete_race db rid = .ok db2) :
    db2 = { db with
            races := db.races.map (fun r =>
              if r.id == rid then { r with status := "cancelled" } else r) } := by
  unfold delete_race at h
  cases hfind : db.races.find? (fun r => r.id == rid) with
  | none => rw [hfind] at h; cases h
  | some race =>
    rw [hfind] at h
    simp only [Except.ok.injEq] at h
    exact h.symm

theorem delete_race_result_ok_inv {db : DB} {rid : Nat} {db2 : DB}
    (h : delete_race_result db rid = .ok db2) :
    db2 = { db with
            race_results := db.race_results.filter (fun r => !(r.id == rid)) } := by
  unfold delete_race_result at h
  cases hfind : db.race_results.find? (fun r => r.id == rid) with
  | none => rw [hfind] at h; cases h
  | some res =>
    rw [hfind] at h
    simp only [Except.ok.injEq] at h
    exact h.symm

theorem update_race_result_ok_inv {db : DB} {rid : Nat}
    {data : RaceResultCreate} {db2 : DB}
    (h : update_race_result db rid data = .ok db2) :
    db2 = { db with
            race_results := db.race_results.map (fun r =>
              if r.id == rid then mkResultRow r.id data else r) } := by
  unfold update_race_result at h
  cases hfind : db.race_results.find? (fun r => r.id == rid) with
  | none => rw [hfind] at h; cases h
  | some res =>
    rw [hfind] at h
    simp only [Except.ok.injEq] at h
    exact h.symm

theorem create_race_ok_inv {db : DB} {p : RaceCreate} {u : String} {db2 : DB}
    (h : create_race db p u = .ok db2) :
    raceRowConstraintsOk (raceRowOfCreate db.nextId p u) = true ∧
      db2 = { db with
              races := db.races ++ [raceRowOfCreate db.nextId p u]
              nextId := db.nextId + 1 } := by
  unfold create_race at h
  by_cases hc : raceRowConstraintsOk (raceRowOfCreate db.nextId p u)
  · simp only [if_pos hc, Except.ok.injEq] at h
    exact ⟨hc, h.symm⟩
  · simp only [if_neg hc] at h
    exact Except.noConfusion h

theorem update_race_ok_inv {db : DB} {rid : Nat} {u : RaceUpdate} {db2 : DB}
    (h : update_race db rid u = .ok db2) :
    ∃ race, db.races.find? (fun r => r.id == rid) = some race ∧
      raceRowConstraintsOk (applyRaceUpdate u race) = true ∧
      db2 = { db with
              races := db.races.map (fun r =>
                if r.id == rid then applyRaceUpdate u r else r) } := by
  unfold update_race at h
  cases hfind : db.races.find? (fun r => r.id == rid) with
  | none => rw [hfind] at h; cases h
  | some race =>
    rw [hfind] at h
    by_cases hc : raceRowConstraintsOk (applyRaceUpdate u race)
    · simp only [if_pos hc, Except.ok.injEq] at h
      exact ⟨race, rfl, hc, h.symm⟩
    · simp only [if_neg hc] at h
      exact Except.noConfusion h

/- ===================================================================
   Claim theorems: race hierarchy
   =================================================================== -/

/-- Claim C1, counterexample to the original statement: for the existing
day 1 a submitted list with pairwise-distinct positions whose single item
carries `race_day_id = 2` succeeds, yet afterwards the RaceResult rows of
day 1 are empty rather than the submitted set. -/
theorem C1_counterexample :
    add_race_results exDB 1 [itemFor 2 1] =
      .ok (addResultsPost exDB 1 [itemFor 2 1], mkRows exDB.nextId [itemFor 2 1]) ∧
    (resultsForDay (addResultsPost exDB 1 [itemFor 2 1]) 1).map payloadOf ≠
      [itemFor 2 1] :=
  ⟨rfl, by decide⟩

/-- Claim C1 (amended): for every existing RaceDay `d` and every submitted
list with pairwise-distinct positions **each of whose items carries
`race_day_id = d`**, the bulk replace succeeds, the RaceResult rows of `d`
afterwards are exactly the submitted set, `total_participants` is the
submitted length, and a `scheduled` status advances to `completed`
(otherwise unchanged). -/
theorem C1_bulk_replace_targeted (db : DB) (d : Nat) (day : RaceDayRow)
    (results : List RaceResultCreate)
    (hday : db.race_days.find? (fun x => x.id == d) = some day)
    (hpos : (results.map (fun r => r.position)).length =
      (results.map (fun r => r.position)).eraseDups.length)
    (htarget : ∀ rc ∈ results, rc.race_day_id = d) :
    add_race_results db d results =
      .ok (addResultsPost db d results, mkRows db.nextId results) ∧
    (resultsForDay (addResultsPost db d results) d).map payloadOf = results ∧
    (addResultsPost db d results).race_days.find? (fun x => x.id == d) =
      some { day with
             total_participants := results.length
             status := if day.status == "scheduled" then "completed"
               else day.status } := by
  have hok := add_race_results_ok hday hpos
  have hpost : addResultsPost db d results = bulkReplaceState db d results := by
    unfold addResultsPost
    rw [hok]
  refine ⟨by rw [hpost]; exact hok, ?_, ?_⟩
  · rw [hpost, resultsForDay_bulkReplace htarget, mkRows_map_payload]
  · rw [hpost]
    exact find?_day_bulkReplace hday

/-- Witness for C1: the two-item submission targeting day 1 of `exDB`
replaces day 1's rows exactly, sets the counter to 2 and completes the
day. -/
theorem C1_bulk_replace_targeted_witness :
    add_race_results exDB 1 [itemFor 1 1, itemFor 1 2] =
      .ok (addResultsPost exDB 1 [itemFor 1 1, itemFor 1 2],
        mkRows exDB.nextId [itemFor 1 1, itemFor 1 2]) ∧
    (resultsForDay (addResultsPost exDB 1 [itemFor 1 1, itemFor 1 2]) 1).map payloadOf =
      [itemFor 1 1, itemFor 1 2] ∧
    (addResultsPost exDB 1 [itemFor 1 1, itemFor 1 2]).race_days.find?
        (fun x => x.id == 1) =
      some { day1 with
             total_participants := 2
             status := if day1.status == "scheduled" then "completed"
               else day1.status } :=
  C1_bulk_replace_targeted exDB 1 day1 [itemFor 1 1, itemFor 1 2] rfl
    (by decide) (by decide)

/-- Claim C2: the single-bull detail path counts a result for bull `b`
whenever `b` occupies either team slot (non-disqualified), but the batch
listing path groups the same filtered rows by
`coalesce(bull1_id, bull2_id)`, so a result where `b` sits in slot 2 next
to a teammate in slot 1 is keyed to the teammate and never counted for
`b`: on `statsDB` bull 2 has 2 first-place wins in the detail path but
only 1 in the batch path. -/
theorem C2_batch_vs_detail_first_place_wins :
    detailFirstPlaceWins statsDB 2 = 2 ∧
    batchFirstPlaceWins statsDB [1, 2] 2 = 1 ∧
    detailFirstPlaceWins statsDB 1 = 1 ∧
    batchFirstPlaceWins statsDB [1, 2] 1 = 1 := by decide

/-- Claim C5, counterexample to the original statement: deleting the
single result of day 1 in `exDB3` succeeds, after which the day has 0
RaceResult rows but `total_participants` is still 1 — the single-row
delete does not recompute the derived counter. -/
theorem C5_counterexample :
    delete_race_result exDB3 5 = .ok (deleteResultPost exDB3 5) ∧
    (resultsForDay (deleteResultPost exDB3 5) 1).length = 0 ∧
    ((deleteResultPost exDB3 5).race_days.find? (fun x => x.id == 1)).map
      (fun x => x.total_participants) = some 1 :=
  ⟨rfl, by decide, by decide⟩

/-- Claim C5 (amended): `total_participants` is recomputed only by the
bulk replace — after a bulk replace whose items all carry the path day's
id the counter equals the day's actual row count — while the single-row
update and delete endpoints of races.py leave every day row (hence the
counter) unchanged, so the counter can diverge from the row count. -/
theorem C5_counter_recompute (db : DB) :
    (∀ d day results,
       db.race_days.find? (fun x => x.id == d) = some day →
       (results.map (fun r => r.position)).length =
         (results.map (fun r => r.position)).eraseDups.length →
       (∀ rc ∈ results, rc.race_day_id = d) →
       ((addResultsPost db d results).race_days.find? (fun x => x.id == d)).map
           (fun x => x.total_participants) =
         some (resultsForDay (addResultsPost db d results) d).length) ∧
    (∀ rid db2, delete_race_result db rid = .ok db2 →
       db2.race_days = db.race_days) ∧
    (∀ rid data db2, update_race_result db rid data = .ok db2 →
       db2.race_days = db.race_days) := by
  refine ⟨?_, ?_, ?_⟩
  · intro d day results hday hpos htarget
    have hok := add_race_results_ok hday hpos
    have hpost : addResultsPost db d results = bulkReplaceState db d results := by
      unfold addResultsPost
      rw [hok]
    rw [hpost, find?_day_bulkReplace hday, resultsForDay_bulkReplace htarget,
      mkRows_length]
    rfl
  · intro rid db2 h
    rw [delete_race_result_ok_inv h]
  · intro rid data db2 h
    rw [update_race_result_ok_inv h]

/-- Witness for C5: on `exDB3`, a targeted bulk replace makes the counter
match the row count, while the single-row delete and update leave the day
rows untouched. -/
theorem C5_counter_recompute_witness :
    ((addResultsPost exDB3 1 [itemFor 1 1, itemFor 1 2]).race_days.find?
        (fun x => x.id == 1)).map (fun x => x.total_participants) =
      some (resultsForDay (addResultsPost exDB3 1 [itemFor 1 1, itemFor 1 2]) 1).length ∧
    (deleteResultPost exDB3 5).race_days = exDB3.race_days ∧
    (updateResultPost exDB3 5 (itemFor 1 3)).race_days = exDB3.race_days :=
  ⟨(C5_counter_recompute exDB3).1 1 { day1 with total_participants := 1 }
      [itemFor 1 1, itemFor 1 2] rfl (by decide) (by decide),
   (C5_counter_recompute exDB3).2.1 5 (deleteResultPost exDB3 5) rfl,
   (C5_counter_recompute exDB3).2.2 5 (itemFor 1 3) (updateResultPost exDB3 5 (itemFor 1 3)) rfl⟩

/-- Claim C6: `start_date ≤ end_date` holds for every race in every
reachable state — creation preserves the invariant and rejects
(`constraintViolation`, the db CHECK constraint `check_race_dates`) any
payload with `start_date > end_date`, and update (under unique race ids)
preserves the invariant and rejects any update whose resulting dates
would violate it. -/
theorem C6_race_date_invariant (db : DB) :
    (∀ payload user db2,
       create_race db payload user = .ok db2 →
       (∀ r ∈ db.races, dateLe r.start_date r.end_date = true) →
       ∀ r ∈ db2.races, dateLe r.start_date r.end_date = true) ∧
    (∀ payload user,
       dateLe payload.start_date payload.end_date = false →
       create_race db payload user = .error .constraintViolation) ∧
    (∀ race_id u db2,
       (db.races.map (fun r => r.id)).Nodup →
       update_race db race_id u = .ok db2 →
       (∀ r ∈ db.races, dateLe r.start_date r.end_date = true) →
       ∀ r ∈ db2.races, dateLe r.start_date r.end_date = true) ∧
    (∀ race_id u race,
       db.races.find? (fun r => r.id == race_id) = some race →
       dateLe (u.start_date.getD race.start_date)
         (u.end_date.getD race.end_date) = false →
       update_race db race_id u = .error .constraintViolation) := by
  refine ⟨?_, ?_, ?_, ?_⟩
  · intro payload user db2 h hinv r hr
    obtain ⟨hok, hdb2⟩ := create_race_ok_inv h
    subst hdb2
    rcases List.mem_append.mp hr with hr1 | hr2
    · exact hinv r hr1
    · have hre : r = raceRowOfCreate db.nextId payload user := by simpa using hr2
      subst hre
      simp only [raceRowConstraintsOk, Bool.and_eq_true] at hok
      exact hok.1.2
  · intro payload user h
    have hc : raceRowConstraintsOk (raceRowOfCreate db.nextId payload user) = false := by
      simp [raceRowConstraintsOk, raceRowOfCreate, h]
    simp [create_race, hc]
  · intro race_id u db2 hnd h hinv r2 hr2
    obtain ⟨race, hfind, hok, hdb2⟩ := update_race_ok_inv h
    subst hdb2
    obtain ⟨r, hrmem, hr2eq⟩ := List.mem_map.mp hr2
    by_cases hid : r.id == race_id
    · have hracemem : race ∈ db.races := List.mem_of_find?_eq_some hfind
      have hracekey : (race.id == race_id) = true := by
        have := List.find?_some hfind
        simpa using this
      have hre : r = race := by
        refine eq_of_key_nodup (fun x => x.id) hnd hrmem hracemem ?_
        have h1 : r.id = race_id := by simpa using hid
        have h2 : race.id = race_id := by simpa using hracekey
        show r.id = race.id
        rw [h1, h2]
      rw [if_pos hid] at hr2eq
      subst hre
      rw [← hr2eq]
      simp only [raceRowConstraintsOk, Bool.and_eq_true] at hok
      exact hok.1.2
    · rw [if_neg hid] at hr2eq
      subst hr2eq
      exact hinv r hrmem
  · intro race_id u race hfind hbad
    have hc : raceRowConstraintsOk (applyRaceUpdate u race) = false := by
      simp [raceRowConstraintsOk, applyRaceUpdate, hbad]
    unfold update_race
    rw [hfind]
    simp [hc]

/-- Witness for C6: on `exDB`, the date-invalid create and update payloads
are rejected while the valid ones commit rows satisfying the invariant. -/
theorem C6_race_date_invariant_witness :
    (dateLe badRaceCreate.start_date badRaceCreate.end_date = false ∧
     create_race exDB badRaceCreate "admin" = .error .constraintViolation) ∧
    dateLe (raceRowOfCreate exDB.nextId goodRaceCreate "admin").start_date
      (raceRowOfCreate exDB.nextId goodRaceCreate "admin").end_date = true ∧
    (dateLe (badRaceUpdate.start_date.getD race1.start_date)
       (badRaceUpdate.end_date.getD race1.end_date) = false ∧
     update_race exDB 1 badRaceUpdate = .error .constraintViolation) ∧
    dateLe (applyRaceUpdate goodRaceUpdate race1).start_date
      (applyRaceUpdate goodRaceUpdate race1).end_date = true :=
  ⟨⟨by decide, (C6_race_date_invariant exDB).2.1 badRaceCreate "admin" (by decide)⟩,
   (C6_race_date_invariant exDB).1 goodRaceCreate "admin"
     (createRacePost exDB goodRaceCreate "admin") rfl (by decide)
     (raceRowOfCreate exDB.nextId goodRaceCreate "admin") (by decide),
   ⟨by decide, (C6_race_date_invariant exDB).2.2.2 1 badRaceUpdate race1 rfl (by decide)⟩,
   (C6_race_date_invariant exDB).2.2.1 1 goodRaceUpdate
     (updateRacePost exDB 1 goodRaceUpdate) (by decide) rfl (by decide)
     (applyRaceUpdate goodRaceUpdate race1) (by decide)⟩

/-- Claim C7: a failing bulk replace — unresolved race day (`notFound`) or
two submitted entries sharing a position (`duplicatePosition`) — reports
exactly that error and leaves the database unchanged: no result row is
deleted or inserted, no day row modified. -/
theorem C7_failed_bulk_replace_no_mutation (db : DB) (d : Nat)
    (results : List RaceResultCreate) :
    (db.race_days.find? (fun x => x.id == d) = none →
       add_race_results db d results = .error .notFound) ∧
    (∀ day, db.race_days.find? (fun x => x.id == d) = some day →
       (results.map (fun r => r.position)).length ≠
         (results.map (fun r => r.position)).eraseDups.length →
       add_race_results db d results = .error .duplicatePosition) ∧
    (∀ e, add_race_results db d results = .error e →
       addResultsPost db d results = db) := by
  refine ⟨?_, ?_, ?_⟩
  · intro h
    unfold add_race_results
    rw [h]
  · intro day hday hpos
    have hpos2 : ¬results.length =
        ((results.map (fun r => r.position)).eraseDups).length := by
      simpa using hpos
    unfold add_race_results
    rw [hday]
    simp [hpos2]
  · intro e h
    unfold addResultsPost
    rw [h]

/-- Witness for C7: submitting two position-1 items for day 1 of `exDB`
fails with `duplicatePosition` and leaves the state unchanged. -/
theorem C7_failed_bulk_replace_no_mutation_witness :
    add_race_results exDB 1 [itemFor 1 1, itemFor 1 1] = .error .duplicatePosition ∧
    addResultsPost exDB 1 [itemFor 1 1, itemFor 1 1] = exDB :=
  have h := (C7_failed_bulk_replace_no_mutation exDB 1
    [itemFor 1 1, itemFor 1 1]).2.1 day1 rfl (by decide)
  ⟨h, (C7_failed_bulk_replace_no_mutation exDB 1
    [itemFor 1 1, itemFor 1 1]).2.2 .duplicatePosition h⟩

/-- Claim C8, counterexample to the original statement: deleting race 1 of
`exDB2` succeeds, yet the Race row still exists (merely cancelled) and its
RaceDay and RaceResult children are all still present — nothing is
removed. -/
theorem C8_counterexample :
    delete_race exDB2 1 = .ok (deleteRacePost exDB2 1) ∧
    ((deleteRacePost exDB2 1).races.find? (fun r => r.id == 1)).isSome = true ∧
    (deleteRacePost exDB2 1).race_days ≠ [] ∧
    (deleteRacePost exDB2 1).race_results ≠ [] :=
  ⟨rfl, by decide, by decide, by decide⟩

/-- Claim C8 (amended): the Delete Race endpoint is a soft delete — on
success it sets the race's status to `cancelled` and removes neither the
Race row nor any RaceDay or RaceResult child. -/
theorem C8_delete_race_cancels (db : DB) (rid : Nat) (db2 : DB)
    (h : delete_race db rid = .ok db2) :
    db2.races = db.races.map (fun r =>
      if r.id == rid then { r with status := "cancelled" } else r) ∧
    db2.race_days = db.race_days ∧
    db2.race_results = db.race_results := by
  rw [delete_race_ok_inv h]
  exact ⟨rfl, rfl, rfl⟩

/-- Witness for C8: cancelling race 1 of `exDB2` only rewrites its status
and keeps the children. -/
theorem C8_delete_race_cancels_witness :
    (deleteRacePost exDB2 1).races = exDB2.races.map (fun r =>
      if r.id == 1 then { r with status := "cancelled" } else r) ∧
    (deleteRacePost exDB2 1).race_days = exDB2.race_days ∧
    (deleteRacePost exDB2 1).race_results = exDB2.race_results :=
  C8_delete_race_cancels exDB2 1 (deleteRacePost exDB2 1) rfl

/-- Claim C9: each row inserted by the bulk replace takes `race_day_id`
from the submitted item itself, while the path parameter only selects the
deleted rows and the updated day; concretely, submitting to day 1 of
`exDB` one item carrying `race_day_id = 2` succeeds and leaves day 1 with
`total_participants = 1` but zero attached rows. -/
theorem C9_inserted_rows_take_payload_day :
    (∀ (db : DB) (d : Nat) (results : List RaceResultCreate) db2 rows,
       add_race_results db d results = .ok (db2, rows) →
       rows.map (fun r => r.race_day_id) =
         results.map (fun rc => rc.race_day_id) ∧
       db2.race_results =
         db.race_results.filter (fun r => !(r.race_day_id == d)) ++ rows) ∧
    (add_race_results exDB 1 [itemFor 2 1] =
       .ok (addResultsPost exDB 1 [itemFor 2 1], mkRows exDB.nextId [itemFor 2 1]) ∧
     ((addResultsPost exDB 1 [itemFor 2 1]).race_days.find? (fun x => x.id == 1)).map
         (fun x => x.total_participants) = some 1 ∧
     (resultsForDay (addResultsPost exDB 1 [itemFor 2 1]) 1).length = 0) := by
  constructor
  · intro db d results db2 rows h
    obtain ⟨hdb2, hrows⟩ := add_race_results_ok_inv h
    subst hdb2
    subst hrows
    exact ⟨mkRows_map_day results db.nextId, rfl⟩
  · exact ⟨rfl, by decide, by decide⟩

/-- Witness for C9: the characterization applied to the concrete
cross-day submission of the claim. -/
theorem C9_inserted_rows_take_payload_day_witness :
    (mkRows exDB.nextId [itemFor 2 1]).map (fun r => r.race_day_id) =
      [itemFor 2 1].map (fun rc => rc.race_day_id) ∧
    (addResultsPost exDB 1 [itemFor 2 1]).race_results =
      exDB.race_results.filter (fun r => !(r.race_day_id == 1)) ++
        mkRows exDB.nextId [itemFor 2 1] :=
  C9_inserted_rows_take_payload_day.1 exDB 1 [itemFor 2 1]
    (addResultsPost exDB 1 [itemFor 2 1]) (mkRows exDB.nextId [itemFor 2 1]) rfl

/-- Claim C10: submitting an empty result list for an existing RaceDay
succeeds, deletes every existing result of that day, sets
`total_participants` to 0 and still advances a `scheduled` status to
`completed`. -/
theorem C10_empty_bulk_replace (db : DB) (d : Nat) (day : RaceDayRow)
    (hday : db.race_days.find? (fun x => x.id == d) = some day) :
    add_race_results db d [] = .ok (bulkReplaceState db d [], []) ∧
    resultsForDay (bulkReplaceState db d []) d = [] ∧
    (bulkReplaceState db d []).race_days.find? (fun x => x.id == d) =
      some { day with
             total_participants := 0
             status := if day.status == "scheduled" then "completed"
               else day.status } := by
  refine ⟨add_race_results_ok hday rfl, ?_, ?_⟩
  · rw [resultsForDay_bulkReplace (by intro rc hrc; cases hrc)]
    rfl
  · exact find?_day_bulkReplace hday

/-- Witness for C10: emptying the scheduled day 1 of `exDB3` (which had
one stored result) leaves zero rows, counter 0, status `completed`. -/
theorem C10_empty_bulk_replace_witness :
    add_race_results exDB3 1 [] = .ok (bulkReplaceState exDB3 1 [], []) ∧
    resultsForDay (bulkReplaceState exDB3 1 []) 1 = [] ∧
    (bulkReplaceState exDB3 1 []).race_days.find? (fun x => x.id == 1) =
      some { { day1 with total_participants := 1 } with
             total_participants := 0
             status := if ({ day1 with total_participants := 1 } : RaceDayRow).status == "scheduled"
               then "completed"
               else ({ day1 with total_participants := 1 } : RaceDayRow).status } :=
  C10_empty_bulk_replace exDB3 1 { day1 with total_participants := 1 } rfl

/- ===================================================================
   Lemmas about the leaderboard computation
   =================================================================== -/

theorem assignRanks_length (db : LBDB) (y m : Nat) :
    ∀ (n : Nat) (l : List LBStat), (assignRanks db y m n l).length = l.length := by
  intro n l
  induction l generalizing n with
  | nil => rfl
  | cons s rest ih => simp [assignRanks, ih]

theorem mem_assignRanks_stats (db : LBDB) (y m : Nat) :
    ∀ {n : Nat} {l : List LBStat} {e : LBEntry}, e ∈ assignRanks db y m n l →
      ∃ s ∈ l, e.bull_id = s.bull_id ∧ e.bull_name = s.bull_name ∧
        e.photo_url = s.photo_url ∧ e.village_id = s.village_id ∧
        e.total_wins = s.total_wins ∧
        e.best_time_milliseconds = s.best_time ∧
        e.total_races = lbTotalRaces db y m s.bull_id := by
  intro n l
  induction l generalizing n with
  | nil => intro e he; cases he
  | cons s rest ih =>
    intro e he
    rcases List.mem_cons.mp he with rfl | he2
    · exact ⟨s, List.mem_cons_self s rest, rfl, rfl, rfl, rfl, rfl, rfl, rfl⟩
    · obtain ⟨s2, hs2, hf⟩ := ih he2
      exact ⟨s2, List.mem_cons_of_mem s hs2, hf⟩

theorem assignRanks_rank_ge (db : LBDB) (y m : Nat) :
    ∀ (n : Nat) (l : List LBStat), ∀ e ∈ assignRanks db y m n l, n ≤ e.rank := by
  intro n l
  induction l generalizing n with
  | nil => intro e he; cases he
  | cons s rest ih =>
    intro e he
    rcases List.mem_cons.mp he with rfl | he2
    · exact Nat.le_refl n
    · exact Nat.le_of_succ_le (ih (n + 1) e he2)

theorem assignRanks_sorted_rank (db : LBDB) (y m : Nat) :
    ∀ (n : Nat) (l : List LBStat),
      (assignRanks db y m n l).Sorted (fun a b : LBEntry => a.rank < b.rank) := by
  intro n l
  induction l generalizing n with
  | nil => exact List.sorted_nil
  | cons s rest ih =>
    rw [assignRanks, List.sorted_cons]
    refine ⟨fun e he => ?_, ih (n + 1)⟩
    exact Nat.lt_of_succ_le (assignRanks_rank_ge db y m (n + 1) rest e he)

theorem assignRanks_sorted_key (db : LBDB) (y m : Nat) :
    ∀ (n : Nat) (l : List LBStat), l.Sorted lbKeyLE →
      (assignRanks db y m n l).Sorted
        (fun a b : LBEntry =>
          b.total_wins < a.total_wins ∨
            (a.total_wins = b.total_wins ∧
              a.best_time_milliseconds ≤ b.best_time_milliseconds)) := by
  intro n l
  induction l generalizing n with
  | nil => intro _; exact List.sorted_nil
  | cons s rest ih =>
    intro hs
    rw [List.sorted_cons] at hs
    rw [assignRanks, List.sorted_cons]
    refine ⟨fun e he => ?_, ih (n + 1) hs.2⟩
    obtain ⟨s2, hs2, _, _, _, _, hw, hb, _⟩ := mem_assignRanks_stats db y m he
    have hkey := hs.1 s2 hs2
    rw [hw, hb]
    exact hkey

theorem sorted_key_compute (db : LBDB) (y m : Nat) (rt : String) (rid : Nat) :
    (compute_leaderboard_for_month db y m rt rid).Sorted
      (fun a b : LBEntry =>
        b.total_wins < a.total_wins ∨
          (a.total_wins = b.total_wins ∧
            a.best_time_milliseconds ≤ b.best_time_milliseconds)) := by
  unfold compute_leaderboard_for_month
  refine assignRanks_sorted_key db y m 1 _ ?_
  exact List.Pairwise.sublist (List.take_sublist 10 _)
    (List.sorted_insertionSort lbKeyLE (groupedStats db y m rt rid))

theorem sorted_rank_compute (db : LBDB) (y m : Nat) (rt : String) (rid : Nat) :
    (compute_leaderboard_for_month db y m rt rid).Sorted
      (fun a b : LBEntry => a.rank < b.rank) := by
  unfold compute_leaderboard_for_month
  exact assignRanks_sorted_rank db y m 1 _

theorem keyMatches_rowOfEntry (y m : Nat) (rt : String) (rid : Nat) (e : LBEntry) :
    keyMatches y m rt rid (rowOfEntry y m rt rid e) = true := by
  simp [keyMatches, rowOfEntry]

theorem save_filter_key (cache : List LBRow) (y m : Nat) (rt : String) (rid : Nat)
    (l : List LBEntry) :
    (save_leaderboard_to_db cache y m rt rid l).filter
        (keyMatches y m rt rid) =
      l.map (rowOfEntry y m rt rid) := by
  unfold save_leaderboard_to_db
  rw [List.filter_append, filter_not_filter, List.nil_append]
  refine List.filter_eq_self.mpr ?_
  intro row hrow
  obtain ⟨e, _, rfl⟩ := List.mem_map.mp hrow
  exact keyMatches_rowOfEntry y m rt rid e

theorem rows_sorted_rank (db : LBDB) (y m : Nat) (rt : String) (rid : Nat) :
    ((compute_leaderboard_for_month db y m rt rid).map (rowOfEntry y m rt rid)).Sorted
      rankLE :=
  (sorted_rank_compute db y m rt rid).map (rowOfEntry y m rt rid)
    (fun _ _ hab => Nat.le_of_lt hab)

theorem cachedJoined_save (db : LBDB) (cache : List LBRow) (y m : Nat)
    (rt : String) (rid : Nat) :
    cachedJoined db
        (save_leaderboard_to_db cache y m rt rid
          (compute_leaderboard_for_month db y m rt rid)) y m rt rid =
      ((compute_leaderboard_for_month db y m rt rid).map (rowOfEntry y m rt rid)).filterMap
        (fun row => (db.bulls.find? (fun b => b.id == row.bull_id)).map
          (fun b => (row, b))) := by
  unfold cachedJoined
  rw [save_filter_key, List.Sorted.insertionSort_eq (rows_sorted_rank db y m rt rid)]

theorem mem_groupedStats {db : LBDB} {y m : Nat} {rt : String} {rid : Nat}
    {s : LBStat} (h : s ∈ groupedStats db y m rt rid) :
    ∃ b ∈ db.bulls, s.bull_id = b.id ∧ s.bull_name = b.name ∧
      s.photo_url = b.photo_url ∧ s.village_id = b.village_id := by
  obtain ⟨b, hb, hfb⟩ := List.mem_filterMap.mp h
  unfold statOfBull at hfb
  by_cases hre : (bullWindowRows db y m rt rid b).isEmpty
  · rw [if_pos hre] at hfb
    exact Option.noConfusion hfb
  · rw [if_neg hre] at hfb
    obtain rfl := Option.some.inj hfb
    exact ⟨b, hb, rfl, rfl, rfl, rfl⟩

theorem mem_compute_origin {db : LBDB} {y m : Nat} {rt : String} {rid : Nat}
    {e : LBEntry} (h : e ∈ compute_leaderboard_for_month db y m rt rid) :
    ∃ b ∈ db.bulls, e.bull_id = b.id ∧ e.bull_name = b.name ∧
      e.photo_url = b.photo_url ∧ e.village_id = b.village_id := by
  obtain ⟨s, hs, h1, h2, h3, h4, _, _, _⟩ := mem_assignRanks_stats db y m h
  have hs2 : s ∈ (groupedStats db y m rt rid).insertionSort lbKeyLE :=
    List.mem_of_mem_take hs
  have hs3 : s ∈ groupedStats db y m rt rid :=
    (List.mem_insertionSort lbKeyLE).mp hs2
  obtain ⟨b, hb, hb1, hb2, hb3, hb4⟩ := mem_groupedStats hs3
  exact ⟨b, hb, h1.trans hb1, h2.trans hb2, h3.trans hb3, h4.trans hb4⟩

theorem joined_map_view (y m : Nat) (rt : String) (rid : Nat)
    (bulls : List LBBull) (hnd : (bulls.map (fun b => b.id)).Nodup) :
    ∀ l : List LBEntry,
      (∀ e ∈ l, ∃ b ∈ bulls, e.bull_id = b.id ∧ e.bull_name = b.name ∧
        e.photo_url = b.photo_url ∧ e.village_id = b.village_id) →
      ((l.map (rowOfEntry y m rt rid)).filterMap
          (fun row => (bulls.find? (fun b => b.id == row.bull_id)).map
            (fun b => (row, b)))).map viewOfPair = l.map viewOfEntry ∧
      ((l.map (rowOfEntry y m rt rid)).filterMap
          (fun row => (bulls.find? (fun b => b.id == row.bull_id)).map
            (fun b => (row, b)))).length = l.length := by
  intro l
  induction l with
  | nil => intro _; exact ⟨rfl, rfl⟩
  | cons e rest ih =>
    intro H
    obtain ⟨b, hb, h1, h2, h3, h4⟩ := H e (List.mem_cons_self e rest)
    have hbid : (rowOfEntry y m rt rid e).bull_id = b.id := h1
    have hfind : bulls.find? (fun b2 => b2.id == (rowOfEntry y m rt rid e).bull_id) =
        some b := by
      rw [hbid]
      exact find?_key_of_nodup (fun x => x.id) hnd hb
    have hhead : viewOfPair (rowOfEntry y m rt rid e, b) = viewOfEntry e := by
      simp [viewOfPair, viewOfEntry, rowOfEntry, h1, h2, h3, h4]
    obtain ⟨ihv, ihl⟩ := ih (fun e2 he2 => H e2 (List.mem_cons_of_mem e he2))
    constructor
    · simp only [List.map_cons, List.filterMap_cons, hfind, Option.map_some']
      rw [hhead, ihv]
    · simp only [List.map_cons, List.filterMap_cons, hfind, Option.map_some',
        List.length_cons, ihl]

/- ===================================================================
   Claim theorems: leaderboard
   =================================================================== -/

/-- Claim C3: for every data set and key, the monthly leaderboard has at
most 10 entries and is ranked by win count descending with ties broken by
best time ascending: among returned entries, equal wins with a strictly
smaller best time gives a strictly smaller (better) rank, and strictly
more wins gives a strictly smaller rank regardless of time. -/
theorem C3_leaderboard_ranking (db : LBDB) (y m : Nat) (rt : String) (rid : Nat) :
    (compute_leaderboard_for_month db y m rt rid).length ≤ 10 ∧
    ∀ i j : Fin (compute_leaderboard_for_month db y m rt rid).length,
      let a := (compute_leaderboard_for_month db y m rt rid).get i
      let b := (compute_leaderboard_for_month db y m rt rid).get j
      (a.total_wins = b.total_wins →
        a.best_time_milliseconds < b.best_time_milliseconds →
        a.rank < b.rank) ∧
      (b.total_wins < a.total_wins → a.rank < b.rank) := by
  constructor
  · unfold compute_leaderboard_for_month
    rw [assignRanks_length, List.length_take]
    exact Nat.min_le_left _ _
  · intro i j
    intro a b
    have hkey := List.pairwise_iff_get.mp (sorted_key_compute db y m rt rid)
    have hrank := List.pairwise_iff_get.mp (sorted_rank_compute db y m rt rid)
    constructor
    · intro hw hb
      rcases Nat.lt_trichotomy i.val j.val with hij | hij | hij
      · exact hrank i j hij
      · exfalso
        have : a = b := by
          show (compute_leaderboard_for_month db y m rt rid).get i = _
          congr 1
          exact Fin.ext hij
        rw [this] at hb
        exact Nat.lt_irrefl _ hb
      · exfalso
        rcases hkey j i hij with h1 | h1
        · rw [hw] at h1
          exact Nat.lt_irrefl _ h1
        · exact Nat.not_le_of_lt hb h1.2
    · intro hw
      rcases Nat.lt_trichotomy i.val j.val with hij | hij | hij
      · exact hrank i j hij
      · exfalso
        have : a = b := by
          show (compute_leaderboard_for_month db y m rt rid).get i = _
          congr 1
          exact Fin.ext hij
        rw [this] at hw
        exact Nat.lt_irrefl _ hw
      · exfalso
        rcases hkey j i hij with h1 | h1
        · exact Nat.lt_asymm hw h1
        · rw [h1.1] at hw
          exact Nat.lt_irrefl _ hw

/-- Claim C4, counterexample to the original statement: with the stale
cache `staleCache` whose underlying data (`staleDB`) now yields an empty
ranking, computing (`compute_and_save_leaderboard` skips persisting an
empty result), reading back, and recomputing with unchanged data do NOT
agree — the read returns the stale cached entry while the recomputation
is empty. -/
theorem C4_counterexample :
    compute_leaderboard_for_month staleDB 2025 5 "village" 1 = [] ∧
    (compute_and_save_leaderboard staleDB staleCache 2025 5 "village" 1).1 =
      staleCache ∧
    (get_leaderboard_from_db staleDB
        (compute_and_save_leaderboard staleDB staleCache 2025 5 "village" 1).1
        2025 5 "village" 1).2 ≠
      (compute_leaderboard_for_month staleDB 2025 5 "village" 1).map viewOfEntry := by
  decide

/-- Claim C4 (amended): the read path returns the cached (joined) rows
whenever any exist, and on a cache miss computes fresh, persists the
result when it is nonempty, and returns it; consequently computing a
leaderboard, reading it back, and recomputing with unchanged underlying
data yields the identical ranked list **provided the fresh computation is
nonempty or the key has no cached row joined to an existing bull** — when
the fresh ranking is empty the save is skipped, so a stale nonempty cache
survives and the read returns it instead (see the counterexample). Bull
ids are assumed unique (primary key). -/
theorem C4_leaderboard_cache (db : LBDB) (cache : List LBRow) (y m : Nat)
    (rt : String) (rid : Nat)
    (hnd : (db.bulls.map (fun b => b.id)).Nodup) :
    (cachedJoined db cache y m rt rid ≠ [] →
       get_leaderboard_from_db db cache y m rt rid =
         (cache, (cachedJoined db cache y m rt rid).map viewOfPair)) ∧
    (cachedJoined db cache y m rt rid = [] →
       get_leaderboard_from_db db cache y m rt rid =
         ((compute_and_save_leaderboard db cache y m rt rid).1,
          (compute_leaderboard_for_month db y m rt rid).map viewOfEntry) ∧
       (compute_leaderboard_for_month db y m rt rid ≠ [] →
          (get_leaderboard_from_db db cache y m rt rid).1.filter
              (keyMatches y m rt rid) =
            (compute_leaderboard_for_month db y m rt rid).map
              (rowOfEntry y m rt rid))) ∧
    (compute_leaderboard_for_month db y m rt rid ≠ [] ∨
       cachedJoined db cache y m rt rid = [] →
       get_leaderboard_from_db db
           (compute_and_save_leaderboard db cache y m rt rid).1 y m rt rid =
         ((compute_and_save_leaderboard db cache y m rt rid).1,
          (compute_leaderboard_for_month db y m rt rid).map viewOfEntry)) := by
  refine ⟨?_, ?_, ?_⟩
  · intro hne
    have hf : (cachedJoined db cache y m rt rid).isEmpty = false := by
      cases hc : cachedJoined db cache y m rt rid with
      | nil => exact absurd hc hne
      | cons a l => rfl
    unfold get_leaderboard_from_db
    rw [hf]
    simp
  · intro hemp
    have hf : (cachedJoined db cache y m rt rid).isEmpty = true := by
      rw [hemp]
      rfl
    have hget : get_leaderboard_from_db db cache y m rt rid =
        ((compute_and_save_leaderboard db cache y m rt rid).1,
         (compute_leaderboard_for_month db y m rt rid).map viewOfEntry) := by
      unfold get_leaderboard_from_db
      rw [hf]
      simp
      rfl
    refine ⟨hget, ?_⟩
    intro hl1ne
    rw [hget]
    have hfl : (compute_leaderboard_for_month db y m rt rid).isEmpty = false := by
      cases hc : compute_leaderboard_for_month db y m rt rid with
      | nil => exact absurd hc hl1ne
      | cons a l => rfl
    unfold compute_and_save_leaderboard
    simp only [hfl, Bool.false_eq_true, if_false]
    exact save_filter_key cache y m rt rid _
  · intro hdisj
    by_cases hl : (compute_leaderboard_for_month db y m rt rid).isEmpty
    · have hl1 : compute_leaderboard_for_month db y m rt rid = [] :=
        List.isEmpty_iff.mp hl
      have hemp : cachedJoined db cache y m rt rid = [] := by
        rcases hdisj with h | h
        · exact absurd hl1 h
        · exact h
      have hcs : (compute_and_save_leaderboard db cache y m rt rid).1 = cache := by
        unfold compute_and_save_leaderboard
        simp only [hl, if_true]
      rw [hcs]
      have hf : (cachedJoined db cache y m rt rid).isEmpty = true := by
        rw [hemp]
        rfl
      unfold get_leaderboard_from_db
      rw [hf]
      simp only [if_true]
      rw [hcs]
      unfold compute_and_save_leaderboard
      simp only [hl, if_true]
    · have hl1ne : compute_leaderboard_for_month db y m rt rid ≠ [] := by
        intro hc
        rw [hc] at hl
        exact hl rfl
      have hcs : (compute_and_save_leaderboard db cache y m rt rid).1 =
          save_leaderboard_to_db cache y m rt rid
            (compute_leaderboard_for_month db y m rt rid) := by
        have hfl : (compute_leaderboard_for_month db y m rt rid).isEmpty = false := by
          cases hc : compute_leaderboard_for_month db y m rt rid with
          | nil => exact absurd hc hl1ne
          | cons a l => rfl
        unfold compute_and_save_leaderboard
        simp only [hfl, Bool.false_eq_true, if_false]
      rw [hcs]
      have hcj := cachedJoined_save db cache y m rt rid
      obtain ⟨hview, hlen⟩ := joined_map_view y m rt rid db.bulls hnd
        (compute_leaderboard_for_month db y m rt rid)
        (fun e he => mem_compute_origin he)
      have hne2 : (cachedJoined db
          (save_leaderboard_to_db cache y m rt rid
            (compute_leaderboard_for_month db y m rt rid)) y m rt rid).isEmpty = false := by
        rw [hcj]
        cases hc : ((compute_leaderboard_for_month db y m rt rid).map
            (rowOfEntry y m rt rid)).filterMap
            (fun row => (db.bulls.find? (fun b => b.id == row.bull_id)).map
              (fun b => (row, b))) with
        | nil =>
          rw [hc] at hlen
          exact absurd (List.length_eq_zero.mp hlen.symm) hl1ne
        | cons a l => rfl
      unfold get_leaderboard_from_db
      rw [hne2]
      simp only [Bool.false_eq_true, if_false]
      rw [hcj, hview]

/-- Witness for C4 on `lbDB` with an initially empty cache: the first read
misses, computes and persists the three-entry ranking; the second read
hits the cache and returns the identical ranked list. -/
theorem C4_leaderboard_cache_witness :
    get_leaderboard_from_db lbDB [] 2025 5 "village" 1 =
      ((compute_and_save_leaderboard lbDB [] 2025 5 "village" 1).1,
       (compute_leaderboard_for_month lbDB 2025 5 "village" 1).map viewOfEntry) ∧
    (get_leaderboard_from_db lbDB [] 2025 5 "village" 1).1.filter
        (keyMatches 2025 5 "village" 1) =
      (compute_leaderboard_for_month lbDB 2025 5 "village" 1).map
        (rowOfEntry 2025 5 "village" 1) ∧
    get_leaderboard_from_db lbDB
        (compute_and_save_leaderboard lbDB [] 2025 5 "village" 1).1 2025 5 "village" 1 =
      ((compute_and_save_leaderboard lbDB [] 2025 5 "village" 1).1,
       (compute_leaderboard_for_month lbDB 2025 5 "village" 1).map viewOfEntry) ∧
    get_leaderboard_from_db lbDB
        (compute_and_save_leaderboard lbDB [] 2025 5 "village" 1).1 2025 5 "village" 1 =
      ((compute_and_save_leaderboard lbDB [] 2025 5 "village" 1).1,
       (cachedJoined lbDB (compute_and_save_leaderboard lbDB [] 2025 5 "village" 1).1
          2025 5 "village" 1).map viewOfPair) :=
  ⟨((C4_leaderboard_cache lbDB [] 2025 5 "village" 1 (by decide)).2.1 (by decide)).1,
   ((C4_leaderboard_cache lbDB [] 2025 5 "village" 1 (by decide)).2.1 (by decide)).2
     (by decide),
   (C4_leaderboard_cache lbDB [] 2025 5 "village" 1 (by decide)).2.2
     (Or.inl (by decide)),
   (C4_leaderboard_cache lbDB
       (compute_and_save_leaderboard lbDB [] 2025 5 "village" 1).1 2025 5 "village" 1
       (by decide)).1 (by decide)⟩

/-- Witness for C3 on the spec's example data: B (3 wins, 19000) ranks
above A (3 wins, 20000), and A ranks above C (2 wins, 15000) despite C's
better time. -/
theorem C3_leaderboard_ranking_witness :
    ((compute_leaderboard_for_month lbDB 2025 5 "village" 1).get ⟨0, by decide⟩).rank <
      ((compute_leaderboard_for_month lbDB 2025 5 "village" 1).get ⟨1, by decide⟩).rank ∧
    ((compute_leaderboard_for_month lbDB 2025 5 "village" 1).get ⟨0, by decide⟩).rank <
      ((compute_leaderboard_for_month lbDB 2025 5 "village" 1).get ⟨2, by decide⟩).rank :=
  ⟨((C3_leaderboard_ranking lbDB 2025 5 "village" 1).2 ⟨0, by decide⟩ ⟨1, by decide⟩).1
      (by decide) (by decide),
   ((C3_leaderboard_ranking lbDB 2025 5 "village" 1).2 ⟨0, by decide⟩ ⟨2, by decide⟩).2
      (by decide)⟩

end RaceBackend
